import Mathlib

/-!
Verification development for the EyeTracker gaze-to-cursor core.

The definitions below are shallow embeddings of the Python classes in
`MonocularTracker` and `MonocularEyeAssist`:

* `FailsafeManager` from `MonocularTracker/utils/failsafe_manager.py`
* `DriftCorrector` from `MonocularTracker/tracking/drift_corrector.py`
  (the `MonocularTracker/ai/drift_corrector.py` copy has identical
  update/offset semantics, differing only in attribute names)
* `TrendPredictor` from `MonocularTracker/tracking/smoothing.py` and
  `MonocularEyeAssist/core/smoothing.py`
* `Calibrator` from `MonocularEyeAssist/core/calibration.py` (screen-aware,
  clamping) and `MonocularTracker/tracking/calibration.py` (no screen,
  no clamping)

Python floats are modelled as exact rationals (`ℚ`); screen pixels and
points as integers (`ℤ`).  A Python comparison `s ** 0.5 > m` with
`s = dx*dx + dy*dy ≥ 0` is embedded exactly as `m < 0 ∨ m * m < s`
(`sqrtGt`), avoiding square roots.  `time.monotonic()` readings are passed
in explicitly as the `now` component of each tick's input.
-/

/-- Exact embedding of the Python test `sqrt s > m` for `s ≥ 0`
(the code always takes `s = dx*dx + dy*dy`): true iff `m < 0` or `m² < s`. -/
def sqrtGt (s m : ℚ) : Bool :=
  decide (m < 0) || decide (m * m < s)

/-- Python `int(q)`: truncation toward zero. -/
def pyTrunc (q : ℚ) : ℤ :=
  if q < 0 then -(⌊-q⌋) else ⌊q⌋

/-- Python `round(q)` to an integer: round half to even (banker's rounding). -/
def pyRound (q : ℚ) : ℤ :=
  let f := ⌊q⌋
  let r := q - (f : ℚ)
  if r < 1/2 then f
  else if 1/2 < r then f + 1
  else if f % 2 = 0 then f else f + 1

/-- `collections.deque(maxlen := cap)` append: push `a` at the back and drop
from the front whatever exceeds the capacity. -/
def pushMax {α : Type} (cap : ℕ) (l : List α) (a : α) : List α :=
  let l2 := l ++ [a]
  l2.drop (l2.length - cap)

/-- Dot product of coefficient and feature lists (`coef_ @ P`). -/
def dotQ (a b : List ℚ) : ℚ :=
  (List.zipWith (· * ·) a b).sum

/-- Sum of absolute successive differences of a list
(`sum(abs(xs[i] - xs[i-1]) for i in range(1, len(xs)))`). -/
def succAbsSum : List ℚ → ℚ
  | [] => 0
  | [_] => 0
  | a :: b :: t => |b - a| + succAbsSum (b :: t)

/-! ## FailsafeManager (`MonocularTracker/utils/failsafe_manager.py`) -/

/-- Constructor parameters of `FailsafeManager.__init__`. -/
structure FSParams where
  max_jump_ratio : ℚ
  max_frame_gap_s : ℚ
  max_drift_pixels : ℚ
  autosleep_idle_s : ℚ
deriving DecidableEq, Repr

/-- Default constructor values (`0.15 / 0.25 / 120.0 / 120.0`). -/
def FSParams.default : FSParams :=
  { max_jump_ratio := 15/100
    max_frame_gap_s := 25/100
    max_drift_pixels := 120
    autosleep_idle_s := 120 }

/-- Mutable state of a `FailsafeManager` instance. -/
structure FSState where
  last_xy : Option (ℤ × ℤ)
  last_time : ℚ
  frozen : Bool
  reason : String
  last_move_time : ℚ
deriving DecidableEq, Repr

/-- `FailsafeManager.reset` at monotonic time `now`. -/
def FSState.reset (now : ℚ) : FSState :=
  { last_xy := none, last_time := now, frozen := false, reason := "",
    last_move_time := now }

/-- One tick's inputs to `FailsafeManager.process`; `now` is the
`time.monotonic()` reading taken at the top of the call. -/
structure FSInput where
  now : ℚ
  candidate : Option (ℤ × ℤ)
  features_present : Bool
  screen : ℤ × ℤ
  drift_offset : Option (ℚ × ℚ)
deriving DecidableEq, Repr

/-- The drift-limit guard of `process`:
`drift_offset is not None and sqrt(ox²+oy²) > max_drift_pixels`. -/
def driftGuard (p : FSParams) (d : Option (ℚ × ℚ)) : Bool :=
  match d with
  | none => false
  | some (ox, oy) => sqrtGt (ox * ox + oy * oy) p.max_drift_pixels

/-- The spike guard: `w = max(1, int(screen_w))`, clamp when the candidate is
farther than `w * max_jump_ratio` from the last accepted point. -/
def spikeGuard (p : FSParams) (screenW : ℤ) (c l : ℤ × ℤ) : Bool :=
  let w : ℚ := ((max 1 screenW : ℤ) : ℚ)
  let mj := w * p.max_jump_ratio
  let dx : ℚ := ((c.1 - l.1 : ℤ) : ℚ)
  let dy : ℚ := ((c.2 - l.2 : ℤ) : ℚ)
  sqrtGt (dx * dx + dy * dy) mj

/-- Spike rejection: when a last accepted point exists and the candidate
jumps beyond the cap, substitute the last accepted point. -/
def spikeClamp (p : FSParams) (screenW : ℤ) (lastxy : Option (ℤ × ℤ))
    (c : ℤ × ℤ) : ℤ × ℤ :=
  match lastxy with
  | none => c
  | some l => if spikeGuard p screenW c l then l else c

/-- Shared tail of `process`: spike rejection, auto-sleep check and the
ACTIVE exit, for a present candidate `c` that passed the earlier guards. -/
def fsAccept (p : FSParams) (s : FSState) (now : ℚ) (screenW : ℤ) (c : ℤ × ℤ) :
    FSState × Option (ℤ × ℤ) :=
  let c2 : ℤ × ℤ := spikeClamp p screenW s.last_xy c
  if s.last_xy.isSome && decide (some c2 = s.last_xy) then
    if p.autosleep_idle_s < now - s.last_move_time then
      ({ s with frozen := true, reason := "autosleep" }, none)
    else
      ({ s with frozen := false, reason := "", last_xy := some c2 }, some c2)
  else
    ({ s with frozen := false, reason := "", last_xy := some c2
              last_move_time := now }, some c2)

/-- `FailsafeManager.process`: returns the updated state together with the
allowed position (`none` freezes the cursor for this tick). -/
def FSState.process (p : FSParams) (s : FSState) (i : FSInput) :
    FSState × Option (ℤ × ℤ) :=
  let dt := i.now - s.last_time
  let s1 := { s with last_time := i.now }
  if p.max_frame_gap_s < dt then
    ({ s1 with frozen := true, reason := "low-fps" }, none)
  else if !i.features_present then
    ({ s1 with frozen := true, reason := "no-features" }, none)
  else
    match i.candidate with
    | none => ({ s1 with frozen := true, reason := "no-features" }, none)
    | some c =>
      if driftGuard p i.drift_offset then
        ({ s1 with frozen := true, reason := "drift-limit" }, none)
      else
        fsAccept p s1 i.now i.screen.1 c

/-- Run `process` over a list of tick inputs, collecting each tick's output. -/
def FSState.runOutputs (p : FSParams) : FSState → List FSInput → List (Option (ℤ × ℤ))
  | _, [] => []
  | s, i :: is =>
    let r := FSState.process p s i
    r.2 :: FSState.runOutputs p r.1 is

/-- `distLE a b c`: the Euclidean distance between integer points `a` and `b`
is at most `c` (expressed with squares; `0 ≤ c` makes it equivalent). -/
def distLE (a b : ℤ × ℤ) (c : ℚ) : Bool :=
  let dx : ℚ := ((a.1 - b.1 : ℤ) : ℚ)
  let dy : ℚ := ((a.2 - b.2 : ℤ) : ℚ)
  decide (0 ≤ c) && decide (dx * dx + dy * dy ≤ c * c)

/-- Every emitted (non-`none`) point of the output list is within distance
`cap` of the previously emitted point; `prev` seeds the "previous" point. -/
def chainOk (cap : ℚ) : Option (ℤ × ℤ) → List (Option (ℤ × ℤ)) → Bool
  | _, [] => true
  | prev, none :: rest => chainOk cap prev rest
  | prev, some q :: rest =>
    (match prev with
     | none => true
     | some pt => distLE q pt cap) && chainOk cap (some q) rest

/-! ## DriftCorrector (`MonocularTracker/tracking/drift_corrector.py`) -/

/-- State and configuration of a `DriftCorrector` instance.  `window` is the
deque capacity `max(1, int(window))`. -/
structure DriftCorrector where
  enabled : Bool
  window : ℕ
  threshold_ratio : ℚ
  learn_rate : ℚ
  errs : List (ℚ × ℚ)
  off : ℚ × ℚ
deriving DecidableEq, Repr

/-- Mean of the error window (`_mean`); the code returns `None` on an empty
window, which callers guard; here the empty case is never used under that
guard so any value serves — we pick `(0, 0)`. -/
def meanErr (errs : List (ℚ × ℚ)) : ℚ × ℚ :=
  let n : ℚ := (errs.length : ℚ)
  ((errs.map Prod.fst).sum / n, (errs.map Prod.snd).sum / n)

/-- One tick's inputs to `DriftCorrector.update`. -/
structure DCInput where
  observed : ℤ × ℤ
  target : ℤ × ℤ
  screen : ℤ × ℤ
deriving DecidableEq, Repr

/-- The error sample pushed by one update: `target - observed`, per axis. -/
def errVec (i : DCInput) : ℚ × ℚ :=
  (((i.target.1 - i.observed.1 : ℤ) : ℚ), ((i.target.2 - i.observed.2 : ℤ) : ℚ))

/-- `DriftCorrector.update`: push `error = target - observed`, compute the
window mean, and advance the offset by `mean * learn_rate` when the mean's
magnitude exceeds `max(1.0, screen_width * threshold_ratio)`. -/
def DriftCorrector.update (d : DriftCorrector) (i : DCInput) : DriftCorrector :=
  if !d.enabled then d
  else
    let errs := pushMax d.window d.errs (errVec i)
    let d1 := { d with errs := errs }
    if errs.isEmpty then d1
    else
      let m := meanErr errs
      if sqrtGt (m.1 * m.1 + m.2 * m.2)
          (max 1 ((i.screen.1 : ℚ) * d.threshold_ratio)) then
        { d1 with off := (d1.off.1 + m.1 * d.learn_rate,
                          d1.off.2 + m.2 * d.learn_rate) }
      else d1

/-- Fold `update` over a list of tick inputs. -/
def DriftCorrector.runUpdates : DriftCorrector → List DCInput → DriftCorrector
  | d, [] => d
  | d, i :: is => DriftCorrector.runUpdates (d.update i) is

/-- The spec-level trigger for one update: the post-push window mean's
magnitude exceeds `threshold_ratio * screen_width` (no `max` with 1.0 —
this is the threshold exactly as the spec words it). -/
def specTrigger (d : DriftCorrector) (i : DCInput) : Bool :=
  let errs := pushMax d.window d.errs (errVec i)
  let m := meanErr errs
  sqrtGt (m.1 * m.1 + m.2 * m.2) ((i.screen.1 : ℚ) * d.threshold_ratio)

/-- A run in which the spec-level trigger never fires: at every step the
rolling mean error magnitude stays at most `threshold_ratio * width`. -/
def quietRun : DriftCorrector → List DCInput → Bool
  | _, [] => true
  | d, i :: is => !specTrigger d i && quietRun (d.update i) is

/-! ## TrendPredictor (`tracking/smoothing.py` and `core/smoothing.py`) -/

/-- State of a `TrendPredictor`: deque capacity `max(4, int(window))`,
lookahead seconds, and the history of recent points. -/
structure TrendPredictor where
  cap : ℕ
  lookahead : ℚ
  hist : List (ℚ × ℚ)
deriving DecidableEq, Repr

/-- Jitter metric of a history window: mean absolute successive difference
per axis, averaged over the two axes (`0.5 * (mx + my)`). -/
def jitterOf (hist : List (ℚ × ℚ)) : ℚ :=
  let xs := hist.map Prod.fst
  let ys := hist.map Prod.snd
  let mx := succAbsSum xs / ((xs.length : ℚ) - 1)
  let my := succAbsSum ys / ((ys.length : ℚ) - 1)
  (mx + my) / 2

/-- Velocity estimate from the last two points of the (post-append) history:
`(xs[-1] - xs[-2], ys[-1] - ys[-2])`. -/
def velOf (hist : List (ℚ × ℚ)) : ℚ × ℚ :=
  let xs := hist.map Prod.fst
  let ys := hist.map Prod.snd
  (xs.getLastD 0 - xs.dropLast.getLastD 0, ys.getLastD 0 - ys.dropLast.getLastD 0)

/-- `TrendPredictor.update` of `MonocularTracker/tracking/smoothing.py`:
integer I/O, jitter threshold `1.5` px, result rounded with Python `round`. -/
def trackerTrendUpdate (t : TrendPredictor) (x y : ℤ) :
    TrendPredictor × (ℤ × ℤ) :=
  let hist := pushMax t.cap t.hist ((x : ℚ), (y : ℚ))
  let t1 := { t with hist := hist }
  if hist.length < 4 then (t1, (x, y))
  else if jitterOf hist < 3/2 then (t1, (x, y))
  else
    let v := velOf hist
    (t1, (pyRound ((x : ℚ) + t.lookahead * v.1),
          pyRound ((y : ℚ) + t.lookahead * v.2)))

/-- `TrendPredictor.update` of `MonocularEyeAssist/core/smoothing.py`:
rational (float) I/O, jitter threshold `2.0` px, no rounding. -/
def assistTrendUpdate (t : TrendPredictor) (x y : ℚ) :
    TrendPredictor × (ℚ × ℚ) :=
  let hist := pushMax t.cap t.hist (x, y)
  let t1 := { t with hist := hist }
  if hist.length < 4 then (t1, (x, y))
  else if jitterOf hist < 2 then (t1, (x, y))
  else
    let v := velOf hist
    (t1, (x + t.lookahead * v.1, y + t.lookahead * v.2))

/-! ## Calibrator (`MonocularEyeAssist/core/calibration.py`) -/

/-- Trained `CalibModel`: per-axis `StandardScaler` parameters, the
`PolynomialFeatures(degree, include_bias=True)` degree, and the two ridge
regressors' coefficients and intercepts. -/
structure CalibModelE where
  mean : ℚ × ℚ
  scale : ℚ × ℚ
  polyDegree : ℕ
  coefX : List ℚ
  intX : ℚ
  coefY : List ℚ
  intY : ℚ
deriving DecidableEq, Repr

/-- `PolynomialFeatures(d, include_bias=True)` on two features, in sklearn
order: degree-ascending, within a degree the power of the first feature
descending — `[1, a, b, a², ab, b², ...]`. -/
def polyFeatures (d : ℕ) (a b : ℚ) : List ℚ :=
  (List.range (d + 1)).flatMap (fun k =>
    (List.range (k + 1)).map (fun j => a ^ (k - j) * b ^ j))

/-- `CalibModel.predict` on a single feature pair: standardize, expand to
polynomial features, then evaluate both ridge regressors. -/
def CalibModelE.predict (m : CalibModelE) (nx ny : ℚ) : ℚ × ℚ :=
  let f1 := (nx - m.mean.1) / m.scale.1
  let f2 := (ny - m.mean.2) / m.scale.2
  let P := polyFeatures m.polyDegree f1 f2
  (dotQ m.coefX P + m.intX, dotQ m.coefY P + m.intY)

/-- State of the screen-aware `Calibrator` of
`MonocularEyeAssist/core/calibration.py`. -/
structure AssistCalibrator where
  screen : ℤ × ℤ
  degree : ℕ
  feats : List (ℚ × ℚ)
  targets : List (ℤ × ℤ)
  model : Option CalibModelE
  last_inlier_mask : Option (List Bool)
deriving DecidableEq, Repr

/-- One clamped output coordinate: `int(max(0, min(limit - 1, q)))`. -/
def clampCoord (limit : ℤ) (q : ℚ) : ℤ :=
  pyTrunc (max 0 (min ((limit - 1 : ℤ) : ℚ) q))

/-- `Calibrator.predict` (MonocularEyeAssist): `(0, 0)` when untrained,
otherwise the model output clamped into `[0, w-1] × [0, h-1]`. -/
def AssistCalibrator.predict (c : AssistCalibrator) (nx ny : ℚ) : ℤ × ℤ :=
  match c.model with
  | none => (0, 0)
  | some m =>
    let out := m.predict nx ny
    (clampCoord c.screen.1 out.1, clampCoord c.screen.2 out.2)

/-- `Calibrator.train` (MonocularEyeAssist).  The numeric fitting
(StandardScaler / PolynomialFeatures / Ridge fits and the MAD outlier pass)
is abstracted as the parameter `fit`; the sample-count guard
`if len(self._feats) < 12: return` and the final state writes are from the
source. -/
def AssistCalibrator.train
    (fit : List (ℚ × ℚ) → List (ℤ × ℤ) → CalibModelE × List Bool)
    (c : AssistCalibrator) : AssistCalibrator :=
  if c.feats.length < 12 then c
  else
    let r := fit c.feats c.targets
    { c with model := some r.1, last_inlier_mask := some r.2 }

/-- Content of the JSON record written by `Calibrator.save`
(MonocularEyeAssist): screen, degree, scaler mean/scale, poly degree, and
both regressors' coefficients and intercepts.  JSON round-trips Python
floats exactly, so serialization is modelled as carrying the numbers. -/
structure SavedAssist where
  screen : ℤ × ℤ
  degree : ℕ
  scalerMean : ℚ × ℚ
  scalerScale : ℚ × ℚ
  polyDegree : ℕ
  rxCoef : List ℚ
  rxInt : ℚ
  ryCoef : List ℚ
  ryInt : ℚ
deriving DecidableEq, Repr

/-- The record `Calibrator.save` assembles from a trained model. -/
def assistSaveData (screen : ℤ × ℤ) (degree : ℕ) (m : CalibModelE) :
    SavedAssist :=
  { screen := screen, degree := degree, scalerMean := m.mean,
    scalerScale := m.scale, polyDegree := m.polyDegree,
    rxCoef := m.coefX, rxInt := m.intX, ryCoef := m.coefY, ryInt := m.intY }

/-- `Calibrator.save` (MonocularEyeAssist): on an untrained model it
returns silently without writing (`.ok none`); otherwise it writes the
record (`.ok (some data)`).  No error path exists for the untrained case. -/
def AssistCalibrator.save (c : AssistCalibrator) :
    Except String (Option SavedAssist) :=
  match c.model with
  | none => Except.ok none
  | some m => Except.ok (some (assistSaveData c.screen c.degree m))

/-- `Calibrator.load` (MonocularEyeAssist) applied to a structurally valid
record: rebuild the scaler, polynomial expander and both regressors from
the stored numbers. -/
def assistLoad (s : SavedAssist) : CalibModelE :=
  { mean := s.scalerMean, scale := s.scalerScale, polyDegree := s.polyDegree,
    coefX := s.rxCoef, intX := s.rxInt, coefY := s.ryCoef, intY := s.ryInt }

/-! ## Calibrator (`MonocularTracker/tracking/calibration.py`) -/

/-- A calibration sample (`Sample` dataclass). -/
structure SampleE where
  feature : ℚ × ℚ
  screen_xy : ℤ × ℤ
deriving DecidableEq, Repr

/-- The poly2 estimator family of the tracker `Calibrator`
(`SKPipeline(StandardScaler, PolynomialFeatures(2, include_bias=False),
Ridge)`); one such pipeline per axis.  (The alternative MLP family is the
same calibrator with a different regressor; the claims settled here depend
only on `predict`'s post-processing and `train`'s guard, not on the
regressor family.) -/
structure RidgePipeE where
  mean : ℚ × ℚ
  scale : ℚ × ℚ
  coef : List ℚ
  intercept : ℚ
deriving DecidableEq, Repr

/-- Evaluate one poly2 ridge pipeline: standardize, expand to
`[a, b, a², ab, b²]` (degree 2, no bias), and apply the ridge. -/
def RidgePipeE.predict (r : RidgePipeE) (a b : ℚ) : ℚ :=
  let f1 := (a - r.mean.1) / r.scale.1
  let f2 := (b - r.mean.2) / r.scale.2
  dotQ r.coef [f1, f2, f1 * f1, f1 * f2, f2 * f2] + r.intercept

/-- State of the tracker `Calibrator` (no screen size is held; the outer
`scaler` is used only by the MLP path and is `None` for poly2 pipelines). -/
structure TrackerCalib where
  method : String
  samples : List SampleE
  mx : Option RidgePipeE
  my : Option RidgePipeE
  scaler : Option ((ℚ × ℚ) × (ℚ × ℚ))
  is_trained : Bool
  last_inlier_mask : Option (List Bool)
deriving DecidableEq, Repr

/-- Apply the optional outer scaler (`self.scaler.transform`). -/
def outerScale (sc : Option ((ℚ × ℚ) × (ℚ × ℚ))) (f : ℚ × ℚ) : ℚ × ℚ :=
  match sc with
  | none => f
  | some (m, s) => ((f.1 - m.1) / s.1, (f.2 - m.2) / s.2)

/-- `Calibrator.predict` (MonocularTracker): `(0, 0)` when untrained;
otherwise evaluate both estimators and return `int(round(...))` of each —
note: no clamping of any kind, and no screen bounds are known here. -/
def TrackerCalib.predict (c : TrackerCalib) (f : ℚ × ℚ) : ℤ × ℤ :=
  match c.is_trained, c.mx, c.my with
  | true, some mx, some my =>
    let fs := outerScale c.scaler f
    (pyRound (mx.predict fs.1 fs.2), pyRound (my.predict fs.1 fs.2))
  | _, _, _ => (0, 0)

/-- Outcome of the tracker's numeric fitting: both estimators, the outer
scaler, the chosen method tag, and the inlier mask. -/
structure TrackerFit where
  mx : RidgePipeE
  my : RidgePipeE
  scaler : Option ((ℚ × ℚ) × (ℚ × ℚ))
  method : String
  mask : List Bool
deriving DecidableEq, Repr

/-- `Calibrator.train` (MonocularTracker).  The numeric work (MLP/poly2
fitting, RMSE comparison, robust outlier pass) is abstracted as the
parameter `fit`; the guard `if not self.samples: return` — a no-op only on
an EMPTY sample list — and the unconditional final state writes (including
`self.is_trained = True`) are from the source. -/
def TrackerCalib.train (fit : List SampleE → TrackerFit) (c : TrackerCalib) :
    TrackerCalib :=
  if c.samples = [] then c
  else
    let r := fit c.samples
    { c with mx := some r.mx, my := some r.my, scaler := r.scaler,
             method := r.method, last_inlier_mask := some r.mask,
             is_trained := true }

/-- Content of the JSON record written by the tracker `Calibrator.save`. -/
structure TrackerSaved where
  method : String
  mxState : RidgePipeE
  myState : RidgePipeE
  scalerState : Option ((ℚ × ℚ) × (ℚ × ℚ))
deriving DecidableEq, Repr

/-- `Calibrator.save` (MonocularTracker): raises
`RuntimeError("Model not trained")` unless trained with both estimators
present; only then is anything written. -/
def TrackerCalib.save (c : TrackerCalib) : Except String TrackerSaved :=
  match c.is_trained, c.mx, c.my with
  | true, some mx, some my =>
    Except.ok { method := c.method, mxState := mx, myState := my,
                scalerState := c.scaler }
  | _, _, _ => Except.error "Model not trained"

/-- `DriftCorrector.__init__`: empty window, zero offset, capacity
`max(1, int(window))`. -/
def DriftCorrector.init (enabled : Bool) (window : ℕ) (t lr : ℚ) :
    DriftCorrector :=
  { enabled := enabled, window := max 1 window, threshold_ratio := t,
    learn_rate := lr, errs := [], off := (0, 0) }

/-- A concrete four-tick trace: the manager is reset at time 0, the same
candidate `(100, 100)` arrives at `0.1s`, `0.3s` and `0.5s` with idle
timeout `0.3s`, so tick 3 freezes with reason "autosleep"; tick 4 at
`0.7s` brings a moved candidate `(150, 100)`. -/
def c2Params : FSParams :=
  { FSParams.default with autosleep_idle_s := 3/10 }

/-- One tick of the C2 trace: features present, screen 1000x1000, no drift
offset supplied. -/
def c2Tick (t : ℚ) (c : ℤ × ℤ) : FSInput :=
  { now := t, candidate := some c, features_present := true,
    screen := (1000, 1000), drift_offset := none }

/-- State after tick 1 of the C2 trace. -/
def c2S1 : FSState :=
  (FSState.process c2Params (FSState.reset 0) (c2Tick (1/10) (100, 100))).1

/-- State after tick 2 of the C2 trace. -/
def c2S2 : FSState :=
  (FSState.process c2Params c2S1 (c2Tick (3/10) (100, 100))).1

/-- Result of tick 3 of the C2 trace (the autosleep freeze). -/
def c2R3 : FSState × Option (ℤ × ℤ) :=
  FSState.process c2Params c2S2 (c2Tick (1/2) (100, 100))

/-- Result of tick 4 of the C2 trace (the moved candidate, no reset). -/
def c2R4 : FSState × Option (ℤ × ℤ) :=
  FSState.process c2Params c2R3.1 (c2Tick (7/10) (150, 100))


/-! ## Theorems -/

/-- C4: whenever `features_present` is false or the candidate is absent,
`FailsafeManager.process` returns `None` (never a point) and leaves the
manager frozen, for every candidate position, screen size and drift
offset — including the case where the frame-gap check fires first. -/
theorem C4_no_features_returns_none (p : FSParams) (s : FSState) (i : FSInput)
    (h : i.features_present = false ∨ i.candidate = none) :
    (FSState.process p s i).2 = none ∧
    (FSState.process p s i).1.frozen = true := by
  unfold FSState.process
  by_cases hg : p.max_frame_gap_s < i.now - s.last_time
  · simp [hg]
  · rcases h with h | h
    · simp [hg, h]
    · cases hf : i.features_present <;> simp [hg, h, hf]

/-- Witness for C4 at a concrete frozen tick. -/
theorem C4_no_features_returns_none_witness :
    (FSState.process FSParams.default (FSState.reset 0)
      { now := 1/10, candidate := some (5, 5), features_present := false,
        screen := (1000, 1000), drift_offset := none }).2 = none ∧
    (FSState.process FSParams.default (FSState.reset 0)
      { now := 1/10, candidate := some (5, 5), features_present := false,
        screen := (1000, 1000), drift_offset := none }).1.frozen = true :=
  C4_no_features_returns_none FSParams.default (FSState.reset 0) _ (Or.inl rfl)

/-- C5: when features are present, the frame-gap and drift-limit guards do
not fire, and the candidate is farther from the last accepted point than
`max_jump_ratio * screen_width`, `process` returns the last accepted point
instead of the candidate, and this spike rejection alone (idle timeout not
exceeded) leaves the manager unfrozen. -/
theorem C5_spike_substitutes_last (p : FSParams) (s : FSState) (i : FSInput)
    (c l : ℤ × ℤ)
    (hfeat : i.features_present = true)
    (hcand : i.candidate = some c)
    (hgap : ¬ p.max_frame_gap_s < i.now - s.last_time)
    (hdrift : driftGuard p i.drift_offset = false)
    (hlast : s.last_xy = some l)
    (hspike : spikeGuard p i.screen.1 c l = true)
    (hidle : ¬ p.autosleep_idle_s < i.now - s.last_move_time) :
    (FSState.process p s i).2 = some l ∧
    (FSState.process p s i).1.frozen = false := by
  unfold FSState.process fsAccept spikeClamp
  simp [hfeat, hcand, hgap, hdrift, hlast, hspike, hidle]

/-- Witness for C5: a 400-pixel jump on a 1000-pixel screen is replaced by
the last accepted point `(100, 100)` without freezing. -/
theorem C5_spike_substitutes_last_witness :
    (FSState.process FSParams.default
      { last_xy := some (100, 100), last_time := 0, frozen := false,
        reason := "", last_move_time := 0 }
      { now := 1/10, candidate := some (500, 100), features_present := true,
        screen := (1000, 1000), drift_offset := none }).2 = some (100, 100) ∧
    (FSState.process FSParams.default
      { last_xy := some (100, 100), last_time := 0, frozen := false,
        reason := "", last_move_time := 0 }
      { now := 1/10, candidate := some (500, 100), features_present := true,
        screen := (1000, 1000), drift_offset := none }).1.frozen = false :=
  C5_spike_substitutes_last FSParams.default _ _ (500, 100) (100, 100)
    rfl rfl (by norm_num [FSParams.default]) rfl rfl
    (by norm_num [spikeGuard, sqrtGt, FSParams.default, max_def])
    (by norm_num [FSParams.default])

/-- C2 (amended): `process` never consults the frozen flag — after a
FROZEN("autosleep") transition, the very next call re-evaluates every
condition from scratch, and as soon as the candidate has moved (within the
jump cap) with all other freeze conditions clear, it returns the candidate
and clears the freeze.  No external resume/reset action is needed. -/
theorem C2_autosleep_not_latched (p : FSParams) (s : FSState) (i : FSInput)
    (c l : ℤ × ℤ)
    (_hfroz : s.frozen = true)
    (_hreason : s.reason = "autosleep")
    (hfeat : i.features_present = true)
    (hcand : i.candidate = some c)
    (hgap : ¬ p.max_frame_gap_s < i.now - s.last_time)
    (hdrift : driftGuard p i.drift_offset = false)
    (hlast : s.last_xy = some l)
    (hspike : spikeGuard p i.screen.1 c l = false)
    (hmove : c ≠ l) :
    (FSState.process p s i).2 = some c ∧
    (FSState.process p s i).1.frozen = false := by
  unfold FSState.process fsAccept spikeClamp
  simp [hfeat, hcand, hgap, hdrift, hlast, hspike, hmove]

/-- Witness for the amended C2: a frozen-for-autosleep manager accepts a
moved candidate on the very next tick. -/
theorem C2_autosleep_not_latched_witness :
    (FSState.process FSParams.default
      { last_xy := some (100, 100), last_time := 1/2, frozen := true,
        reason := "autosleep", last_move_time := 1/10 }
      { now := 7/10, candidate := some (150, 100), features_present := true,
        screen := (1000, 1000), drift_offset := none }).2 = some (150, 100) ∧
    (FSState.process FSParams.default
      { last_xy := some (100, 100), last_time := 1/2, frozen := true,
        reason := "autosleep", last_move_time := 1/10 }
      { now := 7/10, candidate := some (150, 100), features_present := true,
        screen := (1000, 1000), drift_offset := none }).1.frozen = false :=
  C2_autosleep_not_latched FSParams.default _ _ (150, 100) (100, 100)
    rfl rfl rfl rfl (by norm_num [FSParams.default]) rfl rfl
    (by norm_num [spikeGuard, sqrtGt, FSParams.default, max_def])
    (by decide)

/-- C2 (counterexample to the claim as stated): with idle timeout `0.3s`,
a manager that froze with reason "autosleep" on tick 3 returns a point —
not `None` — on tick 4 when the candidate moves, although no external
resume/reset occurred in between.  The autosleep freeze clears
autonomously. -/
theorem C2_counterexample :
    c2R3.1.frozen = true ∧ c2R3.1.reason = "autosleep" ∧ c2R3.2 = none ∧
    c2R4.2 = some (150, 100) ∧ c2R4.1.frozen = false := by
  norm_num [c2R4, c2R3, c2S2, c2S1, c2Params, c2Tick, FSState.process,
    fsAccept, spikeClamp, spikeGuard, sqrtGt, driftGuard, FSState.reset,
    FSParams.default, max_def]

/-- C3 (counterexample to the claim as stated): the MonocularTracker
`Calibrator.train` guard is `if not self.samples: return` — with a single
sample (far below the practical minimum of 12) it fits and flips
`is_trained`, so the model state is not left bit-identical. -/
theorem C3_counterexample :
    (TrackerCalib.train
      (fun _ => { mx := { mean := (0, 0), scale := (1, 1),
                          coef := [0, 0, 0, 0, 0], intercept := 0 },
                  my := { mean := (0, 0), scale := (1, 1),
                          coef := [0, 0, 0, 0, 0], intercept := 0 },
                  scaler := none, method := "poly2", mask := [true] })
      { method := "auto",
        samples := [{ feature := (1/2, 1/2), screen_xy := (100, 100) }],
        mx := none, my := none, scaler := none, is_trained := false,
        last_inlier_mask := none }).is_trained = true ∧
    ({ method := "auto",
       samples := [{ feature := (1/2, 1/2), screen_xy := (100, 100) }],
       mx := none, my := none, scaler := none, is_trained := false,
       last_inlier_mask := none } : TrackerCalib).is_trained = false ∧
    ([{ feature := ((1:ℚ)/2, (1:ℚ)/2), screen_xy := ((100:ℤ), (100:ℤ)) }] :
      List SampleE).length < 12 := by
  refine ⟨?_, rfl, by norm_num⟩
  simp [TrackerCalib.train]

/-- C3 (amended): the MonocularEyeAssist `Calibrator.train` is a
bit-identical no-op below 12 samples; the MonocularTracker variant is a
no-op only on an empty sample list, and with any nonempty sample set —
even one far below 12 — it trains and sets `is_trained`. -/
theorem C3_train_noop_guards :
    (∀ (fit : List (ℚ × ℚ) → List (ℤ × ℤ) → CalibModelE × List Bool)
       (c : AssistCalibrator), c.feats.length < 12 →
       AssistCalibrator.train fit c = c) ∧
    (∀ (fit : List SampleE → TrackerFit) (c : TrackerCalib),
       c.samples = [] → TrackerCalib.train fit c = c) ∧
    (∀ (fit : List SampleE → TrackerFit) (c : TrackerCalib),
       c.samples ≠ [] → (TrackerCalib.train fit c).is_trained = true) := by
  refine ⟨?_, ?_, ?_⟩
  · intro fit c h
    simp [AssistCalibrator.train, h]
  · intro fit c h
    simp [TrackerCalib.train, h]
  · intro fit c h
    simp [TrackerCalib.train, h]

/-- Witness for the amended C3: an empty assist calibrator is unchanged by
`train`, an empty tracker calibrator is unchanged, and a one-sample tracker
calibrator comes out trained. -/
theorem C3_train_noop_guards_witness :
    AssistCalibrator.train
      (fun _ _ => ({ mean := (0, 0), scale := (1, 1), polyDegree := 2,
                     coefX := [], intX := 0, coefY := [], intY := 0 }, []))
      { screen := (1920, 1080), degree := 2, feats := [], targets := [],
        model := none, last_inlier_mask := none } =
      { screen := (1920, 1080), degree := 2, feats := [], targets := [],
        model := none, last_inlier_mask := none } ∧
    (TrackerCalib.train
      (fun _ => { mx := { mean := (0, 0), scale := (1, 1),
                          coef := [0, 0, 0, 0, 0], intercept := 0 },
                  my := { mean := (0, 0), scale := (1, 1),
                          coef := [0, 0, 0, 0, 0], intercept := 0 },
                  scaler := none, method := "poly2", mask := [] })
      { method := "auto",
        samples := [{ feature := (0, 0), screen_xy := (0, 0) }],
        mx := none, my := none, scaler := none,
        is_trained := false, last_inlier_mask := none }).is_trained = true :=
  ⟨C3_train_noop_guards.1 _ _ (by norm_num),
   C3_train_noop_guards.2.2 _ _ (by simp)⟩

/-- C7 (counterexample to the claim as stated): the MonocularEyeAssist
`Calibrator.save` on an untrained model returns silently — `.ok none`, no
exception, nothing written — rather than failing. -/
theorem C7_counterexample :
    AssistCalibrator.save
      { screen := (1920, 1080), degree := 2, feats := [], targets := [],
        model := none, last_inlier_mask := none } = Except.ok none := rfl

/-- C7 (amended): on an untrained model, the MonocularTracker
`Calibrator.save` raises `RuntimeError("Model not trained")` before
writing anything, while the MonocularEyeAssist variant silently returns
without writing anything; in both, nothing is persisted. -/
theorem C7_save_untrained (tc : TrackerCalib) (ac : AssistCalibrator)
    (ht : tc.is_trained = false ∨ tc.mx = none ∨ tc.my = none)
    (ha : ac.model = none) :
    TrackerCalib.save tc = Except.error "Model not trained" ∧
    AssistCalibrator.save ac = Except.ok none := by
  constructor
  · cases htr : tc.is_trained <;> cases hmx : tc.mx <;> cases hmy : tc.my <;>
      simp_all [TrackerCalib.save]
  · simp [AssistCalibrator.save, ha]

/-- Witness for the amended C7 on concrete untrained calibrators. -/
theorem C7_save_untrained_witness :
    TrackerCalib.save
      { method := "auto", samples := [], mx := none, my := none,
        scaler := none, is_trained := false, last_inlier_mask := none } =
      Except.error "Model not trained" ∧
    AssistCalibrator.save
      { screen := (800, 600), degree := 2, feats := [], targets := [],
        model := none, last_inlier_mask := none } = Except.ok none :=
  C7_save_untrained _ _ (Or.inl rfl) rfl

/-- C8: save/load round-trip preserves predictions exactly — the restored
model is field-for-field the saved one, the calibrator-level clamped
`predict` agrees at every feature, and the raw model outputs differ by at
most the claimed `1e-6` tolerance (they are in fact equal). -/
theorem C8_save_load_roundtrip (c : AssistCalibrator) (m : CalibModelE)
    (nx ny : ℚ) (h : c.model = some m) :
    assistLoad (assistSaveData c.screen c.degree m) = m ∧
    AssistCalibrator.predict
      { c with model := some (assistLoad (assistSaveData c.screen c.degree m)) }
      nx ny = AssistCalibrator.predict c nx ny ∧
    |(CalibModelE.predict (assistLoad (assistSaveData c.screen c.degree m))
        nx ny).1 - (CalibModelE.predict m nx ny).1| ≤ 1/1000000 ∧
    |(CalibModelE.predict (assistLoad (assistSaveData c.screen c.degree m))
        nx ny).2 - (CalibModelE.predict m nx ny).2| ≤ 1/1000000 := by
  have he : assistLoad (assistSaveData c.screen c.degree m) = m := rfl
  refine ⟨he, ?_, ?_, ?_⟩
  · rw [he, ← h]
  · rw [he]
    norm_num
  · rw [he]
    norm_num

/-- Witness for C8 on a concrete trained calibrator and feature. -/
theorem C8_save_load_roundtrip_witness :
    assistLoad (assistSaveData (1920, 1080) 2
      { mean := (1/2, 1/2), scale := (1/4, 1/4), polyDegree := 2,
        coefX := [0, 960, 0, 0, 0, 0], intX := 960,
        coefY := [0, 0, 540, 0, 0, 0], intY := 540 }) =
      { mean := (1/2, 1/2), scale := (1/4, 1/4), polyDegree := 2,
        coefX := [0, 960, 0, 0, 0, 0], intX := 960,
        coefY := [0, 0, 540, 0, 0, 0], intY := 540 } :=
  (C8_save_load_roundtrip
    { screen := (1920, 1080), degree := 2, feats := [], targets := [],
      model := some { mean := (1/2, 1/2), scale := (1/4, 1/4),
                      polyDegree := 2, coefX := [0, 960, 0, 0, 0, 0],
                      intX := 960, coefY := [0, 0, 540, 0, 0, 0],
                      intY := 540 },
      last_inlier_mask := none }
    { mean := (1/2, 1/2), scale := (1/4, 1/4), polyDegree := 2,
      coefX := [0, 960, 0, 0, 0, 0], intX := 960,
      coefY := [0, 0, 540, 0, 0, 0], intY := 540 }
    (1/2) (1/2) rfl).1

/-- `int(max(0, min(limit - 1, q)))` lands in `[0, limit)` whenever
`limit ≥ 1`. -/
theorem clampCoord_bounds (limit : ℤ) (q : ℚ) (h : 1 ≤ limit) :
    0 ≤ clampCoord limit q ∧ clampCoord limit q < limit := by
  unfold clampCoord pyTrunc
  have h0 : (0 : ℚ) ≤ max 0 (min ((limit - 1 : ℤ) : ℚ) q) := le_max_left _ _
  rw [if_neg (not_lt.mpr h0)]
  constructor
  · exact Int.floor_nonneg.mpr h0
  · have h1 : max 0 (min ((limit - 1 : ℤ) : ℚ) q) ≤ ((limit - 1 : ℤ) : ℚ) := by
      apply max_le
      ·exact_mod_cast (by omega : (0 : ℤ) ≤ limit - 1)
      · exact min_le_left _ _
    have h2 : ⌊max 0 (min ((limit - 1 : ℤ) : ℚ) q)⌋ ≤ limit - 1 := by
      calc ⌊max 0 (min ((limit - 1 : ℤ) : ℚ) q)⌋
          ≤ ⌊((limit - 1 : ℤ) : ℚ)⌋ := Int.floor_le_floor h1
        _ = limit - 1 := Int.floor_intCast _
    omega

/-- C1 (amended): the MonocularEyeAssist `Calibrator.predict` clamps
unconditionally — for every feature and every model state (trained or
untrained), its output lies in `[0, width) x [0, height)` whenever the
screen dimensions are at least 1.  (The MonocularTracker variant performs
no clamping; see the counterexample.) -/
theorem C1_assist_predict_in_bounds (c : AssistCalibrator) (nx ny : ℚ)
    (hw : 1 ≤ c.screen.1) (hh : 1 ≤ c.screen.2) :
    0 ≤ (AssistCalibrator.predict c nx ny).1 ∧
    (AssistCalibrator.predict c nx ny).1 < c.screen.1 ∧
    0 ≤ (AssistCalibrator.predict c nx ny).2 ∧
    (AssistCalibrator.predict c nx ny).2 < c.screen.2 := by
  unfold AssistCalibrator.predict
  cases hm : c.model with
  | none =>
    dsimp only
    exact ⟨le_refl 0, by omega, le_refl 0, by omega⟩
  | some m =>
    dsimp only
    obtain ⟨a1, a2⟩ := clampCoord_bounds c.screen.1 (m.predict nx ny).1 hw
    obtain ⟨b1, b2⟩ := clampCoord_bounds c.screen.2 (m.predict nx ny).2 hh
    exact ⟨a1, a2, b1, b2⟩

/-- Witness for the amended C1: an untrained assist calibrator on a
1920x1080 screen predicts `(0, 0)`, inside bounds. -/
theorem C1_assist_predict_in_bounds_witness :
    0 ≤ (AssistCalibrator.predict
      { screen := (1920, 1080), degree := 2, feats := [], targets := [],
        model := none, last_inlier_mask := none } (1/2) (1/2)).1 ∧
    (AssistCalibrator.predict
      { screen := (1920, 1080), degree := 2, feats := [], targets := [],
        model := none, last_inlier_mask := none } (1/2) (1/2)).1 < 1920 ∧
    0 ≤ (AssistCalibrator.predict
      { screen := (1920, 1080), degree := 2, feats := [], targets := [],
        model := none, last_inlier_mask := none } (1/2) (1/2)).2 ∧
    (AssistCalibrator.predict
      { screen := (1920, 1080), degree := 2, feats := [], targets := [],
        model := none, last_inlier_mask := none } (1/2) (1/2)).2 < 1080 :=
  C1_assist_predict_in_bounds _ (1/2) (1/2) (by norm_num) (by norm_num)

/-- C1 (counterexample to the claim as stated): a trained MonocularTracker
calibrator — reachable e.g. through `Calibrator.load`, whose coefficients
come straight from the file — whose regressors output `5000` yields
`predict = (5000, 5000)`: `predict` does not clamp, and `5000` is outside
a 1920-pixel-wide screen. -/
theorem C1_counterexample :
    TrackerCalib.predict
      { method := "poly2", samples := [],
        mx := some { mean := (0, 0), scale := (1, 1),
                     coef := [0, 0, 0, 0, 0], intercept := 5000 },
        my := some { mean := (0, 0), scale := (1, 1),
                     coef := [0, 0, 0, 0, 0], intercept := 5000 },
        scaler := none, is_trained := true, last_inlier_mask := none }
      (1/2, 1/2) = (5000, 5000) ∧ ¬ ((5000 : ℤ) < 1920) := by
  constructor
  · norm_num [TrackerCalib.predict, RidgePipeE.predict, outerScale, dotQ,
      pyRound, Int.floor_intCast]
  · norm_num

/-- C9 (counterexample to the claim as stated): with only two history
points `(0,0), (100,100)` the jitter metric over the window is `100`, far
above the `1.5` px threshold, yet `TrendPredictor.update` returns the
input `(100, 100)` unchanged instead of the projection `(115, 115)` —
projection only happens once the history holds at least 4 points. -/
theorem C9_counterexample :
    (trackerTrendUpdate { cap := 8, lookahead := 3/20, hist := [(0, 0)] }
      100 100).2 = (100, 100) ∧
    ¬ jitterOf (trackerTrendUpdate
        { cap := 8, lookahead := 3/20, hist := [(0, 0)] } 100 100).1.hist
      < 3/2 ∧
    ((100 : ℤ), (100 : ℤ)) ≠
      (pyRound ((100 : ℚ) + (3/20) * (velOf (trackerTrendUpdate
         { cap := 8, lookahead := 3/20, hist := [(0, 0)] } 100 100).1.hist).1),
       pyRound ((100 : ℚ) + (3/20) * (velOf (trackerTrendUpdate
         { cap := 8, lookahead := 3/20, hist := [(0, 0)] } 100 100).1.hist).2)) := by
  refine ⟨?_, ?_, ?_⟩
  · norm_num [trackerTrendUpdate, pushMax]
  · norm_num [trackerTrendUpdate, pushMax, jitterOf, succAbsSum]
  · norm_num [trackerTrendUpdate, pushMax, velOf, pyRound,
      Int.floor_intCast]

/-- C9 (amended): in both TrendPredictor variants, `update` returns its
input unchanged whenever the jitter metric over the (post-append) history
window is below the pixel threshold (1.5 px tracker / 2 px assist), and
also whenever the history holds fewer than 4 points; once the window holds
at least 4 points and jitter reaches the threshold, it returns the input
projected forward by `velocity * lookahead` with velocity taken from the
last two history points (the tracker variant rounds to integer pixels). -/
theorem C9_trend_update_behaviour :
    (∀ (t : TrendPredictor) (x y : ℤ),
       jitterOf (pushMax t.cap t.hist ((x : ℚ), (y : ℚ))) < 3/2 →
       (trackerTrendUpdate t x y).2 = (x, y)) ∧
    (∀ (t : TrendPredictor) (x y : ℤ),
       4 ≤ (pushMax t.cap t.hist ((x : ℚ), (y : ℚ))).length →
       ¬ jitterOf (pushMax t.cap t.hist ((x : ℚ), (y : ℚ))) < 3/2 →
       (trackerTrendUpdate t x y).2 =
         (pyRound ((x : ℚ) + t.lookahead *
            (velOf (pushMax t.cap t.hist ((x : ℚ), (y : ℚ)))).1),
          pyRound ((y : ℚ) + t.lookahead *
            (velOf (pushMax t.cap t.hist ((x : ℚ), (y : ℚ)))).2))) ∧
    (∀ (t : TrendPredictor) (x y : ℤ),
       (pushMax t.cap t.hist ((x : ℚ), (y : ℚ))).length < 4 →
       (trackerTrendUpdate t x y).2 = (x, y)) ∧
    (∀ (t : TrendPredictor) (x y : ℚ),
       jitterOf (pushMax t.cap t.hist (x, y)) < 2 →
       (assistTrendUpdate t x y).2 = (x, y)) ∧
    (∀ (t : TrendPredictor) (x y : ℚ),
       4 ≤ (pushMax t.cap t.hist (x, y)).length →
       ¬ jitterOf (pushMax t.cap t.hist (x, y)) < 2 →
       (assistTrendUpdate t x y).2 =
         (x + t.lookahead * (velOf (pushMax t.cap t.hist (x, y))).1,
          y + t.lookahead * (velOf (pushMax t.cap t.hist (x, y))).2)) := by
  refine ⟨?_, ?_, ?_, ?_, ?_⟩
  · intro t x y h
    unfold trackerTrendUpdate
    by_cases hl : (pushMax t.cap t.hist ((x : ℚ), (y : ℚ))).length < 4
    · simp [hl]
    · simp [hl, h]
  · intro t x y h4 h
    unfold trackerTrendUpdate
    rw [if_neg (by omega), if_neg h]
  · intro t x y h
    unfold trackerTrendUpdate
    simp [h]
  · intro t x y h
    unfold assistTrendUpdate
    by_cases hl : (pushMax t.cap t.hist (x, y)).length < 4
    · simp [hl]
    · simp [hl, h]
  · intro t x y h4 h
    unfold assistTrendUpdate
    rw [if_neg (by omega), if_neg h]

/-- Witness for the amended C9: a flat 4-point history (jitter 0) passes
through unchanged, and a constant-velocity run (velocity 10 px/tick,
jitter 5) is projected forward by `lookahead * velocity`. -/
theorem C9_trend_update_behaviour_witness :
    (trackerTrendUpdate
      { cap := 8, lookahead := 3/20, hist := [(0, 0), (0, 0), (0, 0)] }
      0 0).2 = (0, 0) ∧
    (trackerTrendUpdate
      { cap := 8, lookahead := 3/20, hist := [(0, 0), (10, 0), (20, 0)] }
      30 0).2 =
      (pyRound ((30 : ℚ) + (3/20) *
         (velOf (pushMax 8 [((0:ℚ), (0:ℚ)), (10, 0), (20, 0)]
            ((30 : ℚ), (0 : ℚ)))).1),
       pyRound ((0 : ℚ) + (3/20) *
         (velOf (pushMax 8 [((0:ℚ), (0:ℚ)), (10, 0), (20, 0)]
            ((30 : ℚ), (0 : ℚ)))).2)) :=
  ⟨C9_trend_update_behaviour.1 _ 0 0
     (by norm_num [jitterOf, pushMax, succAbsSum]),
   C9_trend_update_behaviour.2.1 _ 30 0
     (by norm_num [pushMax])
     (by norm_num [jitterOf, pushMax, succAbsSum])⟩

/-- If the magnitude test against `m` fails, it also fails against
`max 1 m` — the code's threshold is only ever more conservative than the
spec-level `threshold_ratio * width`. -/
theorem sqrtGt_max_one (s m : ℚ) (h : sqrtGt s m = false) :
    sqrtGt s (max 1 m) = false := by
  unfold sqrtGt at h ⊢
  simp only [Bool.or_eq_false_iff, decide_eq_false_iff_not, not_lt] at h ⊢
  obtain ⟨hm, hs⟩ := h
  refine ⟨le_trans zero_le_one (le_max_left 1 m), ?_⟩
  have h1 : m ≤ max 1 m := le_max_right 1 m
  have h2 : m * m ≤ max 1 m * max 1 m :=
    mul_le_mul h1 h1 hm (le_trans hm h1)
  linarith

/-- Step lemma for C6: if the offset is zero and the spec-level trigger did
not fire, one `update` leaves the offset at zero. -/
theorem drift_update_off_zero (d : DriftCorrector) (i : DCInput)
    (h0 : d.off = (0, 0)) (h : specTrigger d i = false) :
    (d.update i).off = (0, 0) := by
  unfold DriftCorrector.update
  unfold specTrigger at h
  cases hd : d.enabled with
  | false => simpa [hd] using h0
  | true =>
    simp only [hd, Bool.not_true, Bool.false_eq_true, if_false]
    by_cases hemp : (pushMax d.window d.errs (errVec i)).isEmpty
    · simpa [hemp] using h0
    · have hg := sqrtGt_max_one _ _ h
      simp [hemp, hg, h0]

/-- Run lemma for C6: starting from a zero offset, the offset stays
exactly `(0, 0)` through any update sequence in which the rolling mean
error magnitude never exceeds `threshold_ratio * screen_width`. -/
theorem drift_quiet_run_off_zero (d : DriftCorrector) (l : List DCInput)
    (h0 : d.off = (0, 0)) (hq : quietRun d l = true) :
    (DriftCorrector.runUpdates d l).off = (0, 0) := by
  induction l generalizing d with
  | nil => simpa [DriftCorrector.runUpdates] using h0
  | cons i is ih =>
    unfold quietRun at hq
    rw [Bool.and_eq_true, Bool.not_eq_true'] at hq
    unfold DriftCorrector.runUpdates
    exact ih (d.update i) (drift_update_off_zero d i h0 hq.1) hq.2

/-- Advance lemma for C6: whenever one `update` changes the offset at all,
the change is exactly `mean_error * learn_rate` per axis. -/
theorem drift_update_advance (d : DriftCorrector) (i : DCInput)
    (h : (d.update i).off ≠ d.off) :
    (d.update i).off =
      (d.off.1 + (meanErr (pushMax d.window d.errs (errVec i))).1 * d.learn_rate,
       d.off.2 + (meanErr (pushMax d.window d.errs (errVec i))).2 * d.learn_rate) := by
  unfold DriftCorrector.update at h ⊢
  cases hd : d.enabled with
  | false => simp [hd] at h
  | true =>
    simp only [hd, Bool.not_true, Bool.false_eq_true, if_false] at h ⊢
    by_cases hemp : (pushMax d.window d.errs (errVec i)).isEmpty
    · simp [hemp] at h
    · by_cases hg : sqrtGt
        ((meanErr (pushMax d.window d.errs (errVec i))).1 *
           (meanErr (pushMax d.window d.errs (errVec i))).1 +
         (meanErr (pushMax d.window d.errs (errVec i))).2 *
           (meanErr (pushMax d.window d.errs (errVec i))).2)
        (max 1 ((i.screen.1 : ℚ) * d.threshold_ratio)) = true
      · simp [hemp, hg]
      · simp [hemp, hg] at h

/-- C6: from a freshly constructed DriftCorrector, `offset()` remains
exactly `(0, 0)` through every update run in which the rolling-window mean
error magnitude never exceeds `threshold_ratio * screen_width`; and
whenever an update does move the offset, it moves it by exactly
`mean_error * learn_rate` per axis — never a full correction. -/
theorem C6_drift_offset_behaviour :
    (∀ (enabled : Bool) (window : ℕ) (t lr : ℚ) (l : List DCInput),
       quietRun (DriftCorrector.init enabled window t lr) l = true →
       (DriftCorrector.runUpdates (DriftCorrector.init enabled window t lr)
         l).off = (0, 0)) ∧
    (∀ (d : DriftCorrector) (i : DCInput), (d.update i).off ≠ d.off →
       (d.update i).off =
         (d.off.1 +
            (meanErr (pushMax d.window d.errs (errVec i))).1 * d.learn_rate,
          d.off.2 +
            (meanErr (pushMax d.window d.errs (errVec i))).2 * d.learn_rate)) :=
  ⟨fun _ _ _ _ l hq => drift_quiet_run_off_zero _ l rfl hq,
   drift_update_advance⟩

/-- Witness for C6: two opposite 5-pixel errors on a 1000-pixel screen
(threshold 80 px) leave the offset at `(0, 0)`; a single 200-pixel mean
error advances the offset by exactly `200 * 0.01 = 2` pixels. -/
theorem C6_drift_offset_behaviour_witness :
    (DriftCorrector.runUpdates (DriftCorrector.init true 60 (2/25) (1/100))
      [{ observed := (100, 100), target := (105, 100),
         screen := (1000, 1000) },
       { observed := (100, 100), target := (95, 100),
         screen := (1000, 1000) }]).off = (0, 0) ∧
    (DriftCorrector.update (DriftCorrector.init true 60 (2/25) (1/100))
      { observed := (0, 0), target := (200, 0),
        screen := (1000, 1000) }).off = (2, 0) := by
  constructor
  · exact C6_drift_offset_behaviour.1 true 60 (2/25) (1/100) _
      (by norm_num [quietRun, specTrigger, DriftCorrector.update,
        DriftCorrector.init, pushMax, meanErr, errVec, sqrtGt, max_def])
  · rw [C6_drift_offset_behaviour.2
      (DriftCorrector.init true 60 (2/25) (1/100))
      { observed := (0, 0), target := (200, 0), screen := (1000, 1000) }
      (by norm_num [DriftCorrector.update, DriftCorrector.init, pushMax,
        meanErr, errVec, sqrtGt, max_def])]
    norm_num [DriftCorrector.init, pushMax, meanErr, errVec]

/-- A point is within any nonnegative distance cap of itself. -/
theorem distLE_self (a : ℤ × ℤ) (c : ℚ) (hc : 0 ≤ c) :
    distLE a a c = true := by
  unfold distLE
  simp only [sub_self, Int.cast_zero, mul_zero, add_zero, Bool.and_eq_true,
    decide_eq_true_eq]
  exact ⟨hc, mul_nonneg hc hc⟩

/-- A candidate that passes the spike guard is within
`max_jump_ratio * max(1, width)` of the last accepted point. -/
theorem distLE_of_not_spike (p : FSParams) (w : ℤ) (q pt : ℤ × ℤ)
    (h : spikeGuard p w q pt = false) :
    distLE q pt (((max 1 w : ℤ) : ℚ) * p.max_jump_ratio) = true := by
  unfold spikeGuard sqrtGt at h
  unfold distLE
  simp only [Bool.or_eq_false_iff, decide_eq_false_iff_not, not_lt] at h
  simp only [Bool.and_eq_true, decide_eq_true_eq]
  exact ⟨h.1, h.2⟩

/-- The spike-clamped candidate either equals the last accepted point or
itself passes the spike guard against it. -/
theorem spikeClamp_cases (p : FSParams) (w : ℤ) (lastxy : Option (ℤ × ℤ))
    (c : ℤ × ℤ) (pt : ℤ × ℤ) (h : lastxy = some pt) :
    spikeClamp p w lastxy c = pt ∨
    spikeGuard p w (spikeClamp p w lastxy c) pt = false := by
  subst h
  unfold spikeClamp
  by_cases hs : spikeGuard p w c pt = true
  · left
    simp [hs]
  · right
    simp only [Bool.not_eq_true] at hs
    simp [hs]



/-- Case analysis of the accept tail: either the autosleep branch emits
nothing and keeps the last accepted point, or the tail emits a point `q`
that becomes the new last accepted point and is either the previous point
itself or within the spike cap of it. -/
theorem fsAccept_cases (p : FSParams) (s : FSState) (now : ℚ) (w : ℤ)
    (c : ℤ × ℤ) :
    ((fsAccept p s now w c).2 = none ∧
     (fsAccept p s now w c).1.last_xy = s.last_xy) ∨
    (∃ q, (fsAccept p s now w c).2 = some q ∧
      (fsAccept p s now w c).1.last_xy = some q ∧
      ∀ pt, s.last_xy = some pt →
        (q = pt ∨ spikeGuard p w q pt = false)) := by
  unfold fsAccept
  by_cases ha : (s.last_xy.isSome &&
      decide (some (spikeClamp p w s.last_xy c) = s.last_xy)) = true
  · rw [Bool.and_eq_true, decide_eq_true_eq] at ha
    by_cases hi : p.autosleep_idle_s < now - s.last_move_time
    · left
      rw [if_pos]
      · simp [hi]
      · rw [Bool.and_eq_true, decide_eq_true_eq]
        exact ha
    · right
      refine ⟨spikeClamp p w s.last_xy c, ?_, ?_, ?_⟩
      · rw [if_pos]
        · simp [hi]
        · rw [Bool.and_eq_true, decide_eq_true_eq]
          exact ha
      · rw [if_pos]
        · simp [hi]
        · rw [Bool.and_eq_true, decide_eq_true_eq]
          exact ha
      · intro pt hpt
        left
        have h2 := ha.2
        rw [hpt] at h2 ⊢
        exact Option.some.inj h2
  · right
    refine ⟨spikeClamp p w s.last_xy c, ?_, ?_, ?_⟩
    · rw [if_neg ha]
    · rw [if_neg ha]
    · intro pt hpt
      exact spikeClamp_cases p w s.last_xy c pt hpt

/-- Case analysis of one `process` call for the bounded-step invariant:
either the tick emits nothing (output `none`, last accepted point
untouched) or it emits a point `q` that becomes the new last accepted
point and is either the previous one itself or within the spike cap of
it. -/
theorem process_step_cases (p : FSParams) (s : FSState) (i : FSInput) :
    ((FSState.process p s i).2 = none ∧
     (FSState.process p s i).1.last_xy = s.last_xy) ∨
    (∃ q, (FSState.process p s i).2 = some q ∧
      (FSState.process p s i).1.last_xy = some q ∧
      ∀ pt, s.last_xy = some pt →
        (q = pt ∨ spikeGuard p i.screen.1 q pt = false)) := by
  unfold FSState.process
  by_cases hg : p.max_frame_gap_s < i.now - s.last_time
  · left
    simp [hg]
  · cases hf : i.features_present with
    | false => left; simp [hg, hf]
    | true =>
      cases hc : i.candidate with
      | none => left; simp [hg, hf]
      | some c =>
        by_cases hd : driftGuard p i.drift_offset = true
        · left
          simp [hg, hf, hd]
        · simp only [Bool.not_eq_true] at hd
          simp only [hg, hf, hd, if_false, Bool.not_true, Bool.false_eq_true,
            if_true, ite_false, ite_true]
          exact fsAccept_cases p { s with last_time := i.now } i.now
            i.screen.1 c

/-- C10: bounded-step output invariant.  Over any sequence of `process`
calls with a fixed screen width and no intervening reset, every emitted
(non-`None`) point lies within Euclidean distance
`max_jump_ratio * max(1, screen_width)` of the previously emitted point —
a farther candidate is replaced by the last accepted point before being
returned, so consecutive emitted positions can never jump beyond the
cap. -/
theorem C10_bounded_step_invariant (p : FSParams) (w : ℤ)
    (hr : 0 ≤ p.max_jump_ratio) (inputs : List FSInput)
    (hw : ∀ i ∈ inputs, i.screen.1 = w) (s : FSState) :
    chainOk (((max 1 w : ℤ) : ℚ) * p.max_jump_ratio) s.last_xy
      (FSState.runOutputs p s inputs) = true := by
  induction inputs generalizing s with
  | nil => rfl
  | cons i is ih =>
    have hiw : i.screen.1 = w := hw i (List.mem_cons_self i is)
    have hw2 : ∀ j ∈ is, j.screen.1 = w :=
      fun j hj => hw j (List.mem_cons_of_mem i hj)
    unfold FSState.runOutputs
    dsimp only
    rcases process_step_cases p s i with ⟨h2, h1⟩ | ⟨q, h2, h1, hdist⟩
    · rw [h2]
      show chainOk _ s.last_xy _ = true
      rw [← h1]
      exact ih hw2 (FSState.process p s i).1
    · rw [h2]
      show ((match s.last_xy with
             | none => true
             | some pt => distLE q pt (((max 1 w : ℤ) : ℚ) *
                 p.max_jump_ratio)) &&
            chainOk (((max 1 w : ℤ) : ℚ) * p.max_jump_ratio) (some q)
              (FSState.runOutputs p (FSState.process p s i).1 is)) = true
      rw [Bool.and_eq_true]
      constructor
      · cases hl : s.last_xy with
        | none => rfl
        | some pt =>
          rcases hdist pt hl with he | hs
          · subst he
            exact distLE_self q _ (mul_nonneg (by positivity) hr)
          · rw [hiw] at hs
            exact distLE_of_not_spike p w q pt hs
      · rw [← h1]
        exact ih hw2 (FSState.process p s i).1

/-- Witness for C10 on a concrete three-tick run (the third tick is a
600-pixel spike, clamped): every emitted point stays within the cap. -/
theorem C10_bounded_step_invariant_witness :
    chainOk (((max 1 (1000 : ℤ) : ℤ) : ℚ) * FSParams.default.max_jump_ratio)
      (FSState.reset 0).last_xy
      (FSState.runOutputs FSParams.default (FSState.reset 0)
        [{ now := 1/10, candidate := some (100, 100),
           features_present := true, screen := (1000, 1000),
           drift_offset := none },
         { now := 2/10, candidate := some (150, 100),
           features_present := true, screen := (1000, 1000),
           drift_offset := none },
         { now := 3/10, candidate := some (600, 100),
           features_present := true, screen := (1000, 1000),
           drift_offset := none }]) = true :=
  C10_bounded_step_invariant FSParams.default 1000
    (by norm_num [FSParams.default]) _
    (by
      intro i hi
      simp only [List.mem_cons, List.not_mem_nil, or_false] at hi
      rcases hi with h | h | h <;> subst h <;> rfl)
    (FSState.reset 0)
